import Mathlib

/-!
Verification of the neon-to-google-sheets sync program.

This file gives a shallow embedding of the program's core logic:
the cell normalizer and upload preparation of
`src/core/sheets.py` (`GoogleSheetsConnection`), the database access
layer of `src/core/database.py` (`DatabaseConnection`), and the sync
cycle and scheduler of `src/sync/continuous_sync.py` /
`src/sync/one_time_sync.py`.  External effects (the psycopg2 cursor,
the gspread worksheet API, wall-clock time, the POSIX signal that
flips the stop flag) are modelled by explicit oracle values describing
the outcome of each call, while all program logic is translated
directly from the Python source.
-/

namespace NeonSync

/-- A calendar timestamp as carried by `pandas.Timestamp` / `datetime.datetime`
values read out of a PostgreSQL table. -/
structure Timestamp where
  year : Nat
  month : Nat
  day : Nat
  hour : Nat
  minute : Nat
  second : Nat
deriving DecidableEq

/-- Zero padding of a rendered number to a fixed width, as the numeric
directives of `strftime` do. -/
def zfill (w : Nat) (s : String) : String :=
  String.mk (List.replicate (w - s.length) '0') ++ s

/-- Two-digit zero-padded decimal field (`%m`, `%d`, `%H`, `%M`, `%S`). -/
def fmt2 (n : Nat) : String := zfill 2 (Nat.repr n)

/-- Four-digit zero-padded decimal field (`%Y`). -/
def fmt4 (n : Nat) : String := zfill 4 (Nat.repr n)

/-- Embedding of `t.strftime("%Y-%m-%d %H:%M:%S")` from
`prepare_dataframe_for_upload` (and of `datetime.now().strftime(...)` used
for the metadata timestamps). -/
def strftimeYmdHMS (t : Timestamp) : String :=
  fmt4 t.year ++ "-" ++ fmt2 t.month ++ "-" ++ fmt2 t.day ++ " " ++
  fmt2 t.hour ++ ":" ++ fmt2 t.minute ++ ":" ++ fmt2 t.second

/-- A raw cell value of a table snapshot.  `null` covers every value for
which `pd.isna` is true (`None`, `NaN`, `NaT`); `timestamp` covers
`pd.Timestamp` / `datetime.datetime` values. -/
inductive DBValue where
  | null
  | timestamp (t : Timestamp)
  | str (s : String)
  | int (n : Int)
  | bool (b : Bool)
deriving DecidableEq

/-- Python `str(cell)` on the modelled cell values.  (For a timestamp,
`str` also renders the `YYYY-MM-DD HH:MM:SS` text when the sub-second
part is zero; the normalizer never reaches that case because the
`isinstance` branch fires first.) -/
def pyStr : DBValue → String
  | .null => "None"
  | .timestamp t => strftimeYmdHMS t
  | .str s => s
  | .int n => Int.repr n
  | .bool true => "True"
  | .bool false => "False"

/-- The per-cell cleaning of `prepare_dataframe_for_upload`:
`"" if pd.isna(cell)`, `cell.strftime("%Y-%m-%d %H:%M:%S")` for a
timestamp, `str(cell)` otherwise. -/
def cleanCell : DBValue → String
  | .null => ""
  | .timestamp t => strftimeYmdHMS t
  | v => pyStr v

/-- A `pandas.DataFrame` as used by the program: an ordered list of
column names and the row-major cell values. -/
structure DataFrame where
  columns : List String
  values : List (List DBValue)
deriving DecidableEq

/-- Embedding of `GoogleSheetsConnection.prepare_dataframe_for_upload`:
`[df.columns.tolist()] + df.values.tolist()`, then every cell of every
row (the header row included) is cleaned to a string. -/
def prepare_dataframe_for_upload (df : DataFrame) : List (List String) :=
  (df.columns.map DBValue.str :: df.values).map (fun row => row.map cleanCell)

/-! Sheet writer (`src/core/sheets.py`).  A worksheet's cell contents are
modelled as the list of its rows; the success or failure of each gspread
call is an oracle bit. -/

/-- Outcome oracle for the two gspread calls made by
`update_worksheet_data`: `worksheet.clear()` and `worksheet.update(...)`. -/
structure WriteOracle where
  clearOk : Bool
  updateOk : Bool
deriving DecidableEq

/-- Embedding of `GoogleSheetsConnection.update_worksheet_data`: `clear()` then
`update(range_name='A1', values=data)`, with all exceptions caught and
turned into a `False` return.  A failing `clear` leaves the prior
contents; a failing `update` after a successful `clear` leaves the
worksheet empty (the documented partial-write risk). -/
def update_worksheet_data (o : WriteOracle) (data : List (List String))
    (ws : List (List String)) : Bool × List (List String) :=
  if !o.clearOk then (false, ws)
  else if !o.updateOk then (false, [])
  else (true, data)

/-- A value stored in a metadata dictionary before `str` is applied:
the program stores strings and Python ints (`len(df)` etc.). -/
inductive MetaVal where
  | s (v : String)
  | i (n : Nat)
deriving DecidableEq

/-- Python `str` on a metadata value. -/
def MetaVal.toStr : MetaVal → String
  | .s v => v
  | .i n => Nat.repr n

/-- Oracle for one worksheet write: success of
`get_or_create_worksheet` plus the two cell operations. -/
structure WsWriteEnv where
  wsOk : Bool
  write : WriteOracle
deriving DecidableEq

/-- The `sync_info` table built by `update_metadata_worksheet`:
an `["Attribute", "Value"]` header followed by `[key, str(value)]` rows. -/
def renderMetadata (metadata : List (String × MetaVal)) : List (List String) :=
  ["Attribute", "Value"] :: metadata.map (fun kv => [kv.1, kv.2.toStr])

/-- Embedding of `GoogleSheetsConnection.update_metadata_worksheet` acting on the
`Sync_Metadata` worksheet contents. -/
def update_metadata_worksheet (env : WsWriteEnv) (metadata : List (String × MetaVal))
    (metaWs : List (List String)) : Bool × List (List String) :=
  if !env.wsOk then (false, metaWs)
  else update_worksheet_data env.write (renderMetadata metadata) metaWs

/-- Embedding of `GoogleSheetsConnection.update_data_worksheet` acting on the data
worksheet contents: prepare the DataFrame and overwrite the worksheet. -/
def update_data_worksheet (env : WsWriteEnv) (df : DataFrame)
    (dataWs : List (List String)) : Bool × List (List String) :=
  if !env.wsOk then (false, dataWs)
  else update_worksheet_data env.write (prepare_dataframe_for_upload df) dataWs

/-! Database layer (`src/core/database.py`). -/

/-- A Python value appearing in a `RealDictCursor` result row. -/
inductive PyVal where
  | b (v : Bool)
  | i (n : Int)
  | s (v : String)
  | nullv
deriving DecidableEq

/-- Outcome oracle for one `cursor.execute` + fetch + commit round trip:
either some step raises, or it succeeds returning `fetched` rows while
staging `staged` as the post-commit durable database state. -/
inductive ExecOutcome where
  | raises
  | succeeds (fetched : List (List (String × PyVal))) (staged : List (List (String × PyVal)))
deriving DecidableEq

/-- What `query_database` hands back to its caller: a list of dict rows
(for `SELECT`/`RETURNING`), Python `True` (`ok`), or Python `None`
(`err`). -/
inductive QueryResult where
  | rows (rs : List (List (String × PyVal)))
  | ok
  | err
deriving DecidableEq

/-- The `DatabaseConnection` resource: whether `self.connection` holds an
open connection, and the durable (committed) database state it reaches. -/
structure DBConn where
  connection : Bool
  committed : List (List (String × PyVal))
deriving DecidableEq

/-- Dictionary lookup `row[key]` on a `RealDictCursor` row, `none` when
the key is absent (Python would raise `KeyError`). -/
def dictGet (row : List (String × PyVal)) (k : String) : Option PyVal :=
  (row.find? (fun kv => kv.1 == k)).map (fun kv => kv.2)

/-- Python `str.strip()` on a character list: drop leading and trailing
whitespace. -/
def stripChars (l : List Char) : List Char :=
  ((l.dropWhile Char.isWhitespace).reverse.dropWhile Char.isWhitespace).reverse

/-- Python `str.startswith` on character lists. -/
def listStartsWith : List Char → List Char → Bool
  | _, [] => true
  | [], _ :: _ => false
  | a :: as, b :: bs => a == b && listStartsWith as bs

/-- Python `needle in hay` (substring containment) on character lists. -/
def containsList : List Char → List Char → Bool
  | [], needle => needle.isEmpty
  | a :: t, needle => listStartsWith (a :: t) needle || containsList t needle

/-- The classifier in `query_database`:
`query.strip().upper().startswith('SELECT') or 'RETURNING' in query.upper()`
(the queries are ASCII, where `Char.toUpper` agrees with Python's
`str.upper`). -/
def isSelectOrReturning (q : String) : Bool :=
  listStartsWith ((stripChars q.data).map Char.toUpper) "SELECT".data ||
  containsList (q.data.map Char.toUpper) "RETURNING".data

/-- Embedding of `DatabaseConnection.query_database`.  `connectOk` is the oracle for
the `self.connect()` made when no connection exists (that temporary
connection is closed again in the `finally` block).  On an exception the
transaction is rolled back, so the committed state is untouched and
`None` (`err`) is returned; on success the staged state is committed and
either the fetched rows or `True` (`ok`) are returned. -/
def query_database (c : DBConn) (connectOk : Bool) (q : String)
    (outcome : ExecOutcome) : QueryResult × DBConn :=
  if !c.connection then
    if !connectOk then (.err, c)
    else
      match outcome with
      | .raises => (.err, c)
      | .succeeds fetched staged =>
        if isSelectOrReturning q then (.rows fetched, { c with committed := staged })
        else (.ok, { c with committed := staged })
  else
    match outcome with
    | .raises => (.err, c)
    | .succeeds fetched staged =>
      if isSelectOrReturning q then (.rows fetched, { c with committed := staged })
      else (.ok, { c with committed := staged })

/-- The parameter-bound existence query issued by `table_exists`. -/
def existsQuery : String :=
  "SELECT EXISTS ( SELECT FROM information_schema.tables WHERE table_schema = \x27public\x27 AND table_name = %s );"

/-- Embedding of `DatabaseConnection.table_exists`, which returns
`result and result[0]['exists'] if result else False`.  The first
component is `some b` for a normal boolean return and `none` when the
Python expression would raise (`result` is `True`, or the first row has
no boolean `exists` entry) -- situations the SQL shape rules out. -/
def table_exists (c : DBConn) (connectOk : Bool) (outcome : ExecOutcome) :
    Option Bool × DBConn :=
  match query_database c connectOk existsQuery outcome with
  | (.rows [], c2) => (some false, c2)
  | (.rows (r :: _), c2) =>
    match dictGet r "exists" with
    | some (.b v) => (some v, c2)
    | _ => (Option.none, c2)
  | (.ok, c2) => (Option.none, c2)
  | (.err, c2) => (some false, c2)

/-- Outcome oracle for the raw-cursor fetch in `get_table_data`:
either the cursor raises, or it yields the column names from
`cursor.description` and the fetched rows. -/
inductive FetchOutcome where
  | raises
  | succeeds (cols : List String) (data : List (List DBValue))
deriving DecidableEq

/-- Embedding of `DatabaseConnection.get_table_data`.  If the connection is absent or
closed it first reconnects (oracle `reconnectOk`), returning `None` on
failure.  A raising fetch returns `None`; an empty fetch returns
`pd.DataFrame()` -- an empty frame with no columns; otherwise
`pd.DataFrame(data, columns=columns)`. -/
def get_table_data (c : DBConn) (reconnectOk : Bool) (outcome : FetchOutcome) :
    Option DataFrame × DBConn :=
  if !c.connection && !reconnectOk then (Option.none, c)
  else
    let c2 : DBConn := { c with connection := true }
    match outcome with
    | .raises => (Option.none, c2)
    | .succeeds cols data =>
      if data.isEmpty then (some ⟨[], []⟩, c2)
      else (some ⟨cols, data⟩, c2)

/-! Sync cycle (`src/sync/continuous_sync.py` `perform_sync_cycle` and
`src/sync/one_time_sync.py` `download_and_upload_data`). -/

/-- Oracle bundle for one sync cycle: the database fetch and the two
worksheet writes, plus the wall-clock instant `datetime.now()` reads
when the metadata is built. -/
structure CycleEnv where
  reconnectOk : Bool
  fetch : FetchOutcome
  dataWrite : WsWriteEnv
  metaWrite : WsWriteEnv
  now : Timestamp
deriving DecidableEq

/-- Contents of the two worksheets the program owns. -/
structure SheetsState where
  dataWs : List (List String)
  metaWs : List (List String)
deriving DecidableEq

/-- The metadata dictionary built by `perform_sync_cycle`
(continuous mode).  `self.sync_interval` is `int(...) * 60` seconds, so
`f"\x7bself.sync_interval/60:.1f\x7d minutes"` renders the integral
minute count followed by `.0`. -/
def continuousMetadata (tableName : String) (df : DataFrame)
    (intervalMinutes : Nat) (now : Timestamp) : List (String × MetaVal) :=
  [("Last Sync Time", .s (strftimeYmdHMS now)),
   ("Source Table", .s tableName),
   ("Total Rows", .i df.values.length),
   ("Total Columns", .i df.columns.length),
   ("Data Worksheet", .s (tableName ++ "_data")),
   ("Sync Interval", .s (Nat.repr intervalMinutes ++ ".0 minutes")),
   ("Status", .s "Running")]

/-- The metadata dictionary built by `download_and_upload_data`
(one-time mode). -/
def oneTimeMetadata (tableName : String) (df : DataFrame) (now : Timestamp) :
    List (String × MetaVal) :=
  [("Last Sync Time", .s (strftimeYmdHMS now)),
   ("Source Table", .s tableName),
   ("Total Rows", .i df.values.length),
   ("Total Columns", .i df.columns.length),
   ("Data Worksheet", .s (tableName ++ "_data")),
   ("Sync Type", .s "One-time")]

/-- Embedding of `NeonToSheetsSync.perform_sync_cycle`: fetch the table; on `None` or
an empty frame report failure without touching the sheets; otherwise
overwrite the data worksheet and then the metadata worksheet, failing as
soon as a write fails. -/
def perform_sync_cycle (env : CycleEnv) (tableName : String)
    (intervalMinutes : Nat) (c : DBConn) (s : SheetsState) :
    Bool × DBConn × SheetsState :=
  match get_table_data c env.reconnectOk env.fetch with
  | (Option.none, c2) => (false, c2, s)
  | (some df, c2) =>
    if df.values.length = 0 then (false, c2, s)
    else
      match update_data_worksheet env.dataWrite df s.dataWs with
      | (false, dataWs2) => (false, c2, { s with dataWs := dataWs2 })
      | (true, dataWs2) =>
        match update_metadata_worksheet env.metaWrite
            (continuousMetadata tableName df intervalMinutes env.now) s.metaWs with
        | (ok2, metaWs2) => (ok2, c2, { dataWs := dataWs2, metaWs := metaWs2 })

/-- Embedding of `OneTimeSyncToSheets.download_and_upload_data`: identical structure,
but the metadata record carries `Sync Type: One-time` and no interval or
status entry. -/
def download_and_upload_data (env : CycleEnv) (tableName : String)
    (c : DBConn) (s : SheetsState) : Bool × DBConn × SheetsState :=
  match get_table_data c env.reconnectOk env.fetch with
  | (Option.none, c2) => (false, c2, s)
  | (some df, c2) =>
    if df.values.length = 0 then (false, c2, s)
    else
      match update_data_worksheet env.dataWrite df s.dataWs with
      | (false, dataWs2) => (false, c2, { s with dataWs := dataWs2 })
      | (true, dataWs2) =>
        match update_metadata_worksheet env.metaWrite
            (oneTimeMetadata tableName df env.now) s.metaWs with
        | (ok2, metaWs2) => (ok2, c2, { dataWs := dataWs2, metaWs := metaWs2 })

/-! Scheduler (`NeonToSheetsSync.start_continuous_sync`).  Wall-clock
time is counted in whole seconds of `time.sleep(1)` calls and cycle
durations; the external stop request arrives at the rational instant
`stopAt`, so a flag check performed at second `t` sees the process still
running exactly when `t < stopAt`. -/

/-- Whether `self.is_running` is still true at second `t`. -/
def isRunningAt (stopAt : ℚ) (t : Nat) : Bool := decide ((t : ℚ) < stopAt)

/-- The inter-cycle wait
`for i in range(self.sync_interval): if not self.is_running: break; time.sleep(1)`:
starting at second `t` with `n` sleeps budgeted, returns the second at
which the loop is left. -/
def waitLoop (stopAt : ℚ) (t : Nat) : Nat → Nat
  | 0 => t
  | n + 1 => if isRunningAt stopAt t then waitLoop stopAt (t + 1) n else t

/-- The mutable state of the continuous-sync process: elapsed seconds,
the `sync_count` counter, and the two owned connections. -/
structure SyncState where
  time : Nat
  syncCount : Nat
  conn : DBConn
  sheets : SheetsState
deriving DecidableEq

/-- Oracle bundle for the scheduler: the stop instant, one `CycleEnv`
and duration per sync number, and the final cleanup metadata write. -/
structure SchedEnv where
  stopAt : ℚ
  cycles : Nat → CycleEnv
  cycleDur : Nat → Nat
  finalWrite : WsWriteEnv
  finalNow : Timestamp

/-- The `while self.is_running` loop of `start_continuous_sync`: wait in
one-second increments, re-check the flag, then run the next numbered
cycle to completion (the cycle itself never checks the flag).  `fuel`
bounds the number of modelled iterations; the boolean result is `true`
when the loop was left because the stop flag was observed and `false`
when the fuel horizon was reached with the process still running. -/
def syncLoop (env : SchedEnv) (tableName : String) (intervalMinutes : Nat) :
    SyncState → Nat → SyncState × Bool
  | st, 0 => (st, false)
  | st, fuel + 1 =>
    if !isRunningAt env.stopAt st.time then (st, true)
    else
      let t1 := waitLoop env.stopAt st.time (intervalMinutes * 60)
      if !isRunningAt env.stopAt t1 then ({ st with time := t1 }, true)
      else
        match perform_sync_cycle (env.cycles (st.syncCount + 1)) tableName
            intervalMinutes st.conn st.sheets with
        | (_, c2, s2) =>
          syncLoop env tableName intervalMinutes
            { time := t1 + env.cycleDur (st.syncCount + 1),
              syncCount := st.syncCount + 1, conn := c2, sheets := s2 } fuel

/-- The final metadata record written during shutdown. -/
def finalMetadata (env : SchedEnv) (tableName : String) (count : Nat) :
    List (String × MetaVal) :=
  [("Last Sync Time", .s (strftimeYmdHMS env.finalNow)),
   ("Source Table", .s tableName),
   ("Total Syncs Completed", .i count),
   ("Status", .s "Stopped")]

/-- The shutdown block after the loop: close the database connection if
one is open, then best-effort write the final metadata record with
`Status: Stopped` (its result is ignored and any exception swallowed),
and report overall success. -/
def syncCleanup (env : SchedEnv) (tableName : String) (st : SyncState) :
    Bool × SyncState :=
  let c2 : DBConn := if st.conn.connection then { st.conn with connection := false } else st.conn
  match update_metadata_worksheet env.finalWrite
      (finalMetadata env tableName st.syncCount) st.sheets.metaWs with
  | (_, metaWs2) => (true, { st with conn := c2, sheets := { st.sheets with metaWs := metaWs2 } })

/-- Oracle bundle for a whole `start_continuous_sync` run:
environment-variable validation, `connect_to_services`, the initial
cycle and its duration, and the loop's `SchedEnv`. -/
structure StartEnv where
  envOk : Bool
  servicesOk : Bool
  initCycle : CycleEnv
  initDur : Nat
  sched : SchedEnv

/-- Effect of `self.db.connect()` succeeding inside `connect_to_services`. -/
def connOn (c : DBConn) : DBConn := { c with connection := true }

/-- The state right after a successful initial sync: one completed
cycle, the clock advanced by its duration. -/
def afterInit (env : StartEnv) (tableName : String) (intervalMinutes : Nat)
    (st0 : SyncState) : SyncState :=
  { time := st0.time + env.initDur, syncCount := 1,
    conn := (perform_sync_cycle env.initCycle tableName intervalMinutes
      (connOn st0.conn) st0.sheets).2.1,
    sheets := (perform_sync_cycle env.initCycle tableName intervalMinutes
      (connOn st0.conn) st0.sheets).2.2 }

/-- Embedding of `NeonToSheetsSync.start_continuous_sync`: validate the environment,
connect to the services, run the initial cycle (aborting with `False`
if any of these fail), then run the loop and the shutdown block.
`none` is the fuel-exhaustion artifact: the process would still be
running at the modelled horizon. -/
def start_continuous_sync (env : StartEnv) (tableName : String)
    (intervalMinutes : Nat) (fuel : Nat) (st0 : SyncState) :
    Option (Bool × SyncState) :=
  if !env.envOk then some (false, st0)
  else if !env.servicesOk then some (false, st0)
  else if (perform_sync_cycle env.initCycle tableName intervalMinutes
      (connOn st0.conn) st0.sheets).1 = false then
    some (false, { afterInit env tableName intervalMinutes st0 with syncCount := st0.syncCount })
  else
    match syncLoop env.sched tableName intervalMinutes
        (afterInit env tableName intervalMinutes st0) fuel with
    | (_, false) => Option.none
    | (st3, true) => some (syncCleanup env.sched tableName st3)

/-- A string that is exactly `w` decimal digits, as the fixed-width
fields of the `YYYY-MM-DD HH:MM:SS` format are. -/
def digitsOfWidth (w : Nat) (s : String) : Prop :=
  s.length = w ∧ ∀ c ∈ s.data, c.isDigit = true

/-! Concrete sample inputs, used to instantiate the theorems below. -/

/-- The scenario table of the spec: columns `id`, `name`, `created_at`
with rows `(1, "Ann", 2024-01-01T00:00:00)` and `(2, "Bo", null)`. -/
def sampleDF : DataFrame :=
  ⟨["id", "name", "created_at"],
   [[.int 1, .str "Ann", .timestamp ⟨2024, 1, 1, 0, 0, 0⟩],
    [.int 2, .str "Bo", .null]]⟩

/-- A sample wall-clock instant. -/
def ts0 : Timestamp := ⟨2024, 1, 15, 9, 30, 5⟩

/-- A worksheet write in which every gspread call succeeds. -/
def okWrite : WsWriteEnv := ⟨true, ⟨true, true⟩⟩

/-- A fully successful cycle fetching `sampleDF`. -/
def okCycle : CycleEnv :=
  ⟨true, .succeeds sampleDF.columns sampleDF.values, okWrite, okWrite, ts0⟩

/-- An open database connection over an empty committed state. -/
def conn0 : DBConn := ⟨true, []⟩

/-- Prior worksheet contents left by an earlier cycle. -/
def sheets0 : SheetsState := ⟨[["old"]], [["oldmeta"]]⟩

/-- Scheduler oracle for a run stopped mid-cycle: stop at second 65.5,
every cycle succeeds and lasts 10 seconds. -/
def schedMidCycle : SchedEnv :=
  { stopAt := mkRat 131 2, cycles := fun _ => okCycle, cycleDur := fun _ => 10,
    finalWrite := okWrite, finalNow := ts0 }

/-- Loop state at the start of the wait after the initial cycle. -/
def stMidCycle : SyncState := ⟨0, 1, conn0, sheets0⟩

/-- Scheduler oracle for a run stopped half a second in. -/
def schedEarlyStop : SchedEnv :=
  { stopAt := mkRat 1 2, cycles := fun _ => okCycle, cycleDur := fun _ => 1,
    finalWrite := okWrite, finalNow := ts0 }

/-- A full-run oracle: everything succeeds, the stop arrives at 0.5s. -/
def startEnv0 : StartEnv :=
  { envOk := true, servicesOk := true, initCycle := okCycle, initDur := 1,
    sched := schedEarlyStop }

/-- Initial process state: no connection yet, prior sheet contents. -/
def st0 : SyncState := ⟨0, 0, ⟨false, []⟩, sheets0⟩

/-- A cycle whose database fetch raises. -/
def failCycle : CycleEnv := ⟨true, .raises, okWrite, okWrite, ts0⟩

/-- A run whose initial cycle fails. -/
def startEnvFail : StartEnv :=
  { envOk := true, servicesOk := true, initCycle := failCycle, initDur := 1,
    sched := schedEarlyStop }

/-- Variant of `schedMidCycle` with every cycle failing instead of succeeding. -/
def schedMidCycleFail : SchedEnv := { schedMidCycle with cycles := fun _ => failCycle }

/-- Well-formedness of the response to the `table_exists` query, which
the SQL shape guarantees: either the call raises, or the first fetched
row (when any) binds `exists` to a boolean. -/
def wellFormedExistsOutcome : ExecOutcome → Bool
  | .raises => true
  | .succeeds [] _ => true
  | .succeeds (r :: _) _ =>
    match dictGet r "exists" with
    | some (.b _) => true
    | _ => false

/-! Helper lemmas. -/

theorem cleanCell_str (s : String) : cleanCell (DBValue.str s) = s := rfl

theorem digitChar_isDigit : ∀ m, m < 10 → (Nat.digitChar m).isDigit = true := by decide

theorem toDigitsCore_length_le (fuel : Nat) :
    ∀ (k n : Nat) (ds : List Char), 0 < k → n < 10 ^ k →
      (Nat.toDigitsCore 10 fuel n ds).length ≤ k + ds.length := by
  induction fuel with
  | zero =>
    intro k n ds hk _
    simp only [Nat.toDigitsCore]
    omega
  | succ fuel ih =>
    intro k n ds hk hn
    simp only [Nat.toDigitsCore]
    by_cases h : n / 10 = 0
    · rw [if_pos h]
      simp only [List.length_cons]
      omega
    · rw [if_neg h]
      obtain ⟨k1, rfl⟩ : ∃ k1, k = k1 + 1 := ⟨k - 1, by omega⟩
      have hk1 : 0 < k1 := by
        rcases Nat.eq_zero_or_pos k1 with h0 | h0
        · subst h0
          have hn10 : n < 10 := by simpa using hn
          exact absurd (Nat.div_eq_of_lt hn10) h
        · exact h0
      have hdiv : n / 10 < 10 ^ k1 := by
        rw [Nat.div_lt_iff_lt_mul (by norm_num : (0:ℕ) < 10)]
        calc n < 10 ^ (k1 + 1) := hn
          _ = 10 ^ k1 * 10 := by ring
      have := ih k1 (n / 10) (Nat.digitChar (n % 10) :: ds) hk1 hdiv
      simp only [List.length_cons] at this
      omega

theorem toDigitsCore_digits (fuel : Nat) :
    ∀ (n : Nat) (ds : List Char), ∀ c ∈ Nat.toDigitsCore 10 fuel n ds,
      c ∈ ds ∨ c.isDigit = true := by
  induction fuel with
  | zero =>
    intro n ds c hc
    simp only [Nat.toDigitsCore] at hc
    exact Or.inl hc
  | succ fuel ih =>
    intro n ds c hc
    simp only [Nat.toDigitsCore] at hc
    by_cases h : n / 10 = 0
    · rw [if_pos h] at hc
      rcases List.mem_cons.mp hc with h1 | h1
      · subst h1
        exact Or.inr (digitChar_isDigit _ (Nat.mod_lt _ (by norm_num)))
      · exact Or.inl h1
    · rw [if_neg h] at hc
      rcases ih _ _ c hc with h1 | h1
      · rcases List.mem_cons.mp h1 with h2 | h2
        · subst h2
          exact Or.inr (digitChar_isDigit _ (Nat.mod_lt _ (by norm_num)))
        · exact Or.inl h2
      · exact Or.inr h1

theorem repr_length_le (k n : Nat) (hk : 0 < k) (hn : n < 10 ^ k) :
    (Nat.repr n).length ≤ k := by
  have h := toDigitsCore_length_le (n + 1) k n [] hk hn
  simpa [Nat.repr, Nat.toDigits, List.asString] using h

theorem repr_digits (n : Nat) : ∀ c ∈ (Nat.repr n).data, c.isDigit = true := by
  intro c hc
  have hm : c ∈ Nat.toDigitsCore 10 (n + 1) n [] := by
    simpa [Nat.repr, Nat.toDigits, List.asString] using hc
  rcases toDigitsCore_digits (n + 1) n [] c hm with h | h
  · simp at h
  · exact h

theorem zfill_length (w : Nat) (s : String) (h : s.length ≤ w) :
    (zfill w s).length = w := by
  simp only [zfill, String.length_append, String.length_mk, List.length_replicate]
  omega

theorem zfill_digits (w : Nat) (s : String) (hd : ∀ c ∈ s.data, c.isDigit = true) :
    ∀ c ∈ (zfill w s).data, c.isDigit = true := by
  intro c hc
  simp only [zfill, String.data_append] at hc
  rcases List.mem_append.mp hc with h1 | h1
  · have : c = '0' := (List.eq_of_mem_replicate h1)
    subst this
    decide
  · exact hd c h1

theorem fmt4_shape (n : Nat) (h : n < 10000) : digitsOfWidth 4 (fmt4 n) := by
  have hp : n < 10 ^ 4 := by
    have : (10:ℕ) ^ 4 = 10000 := by norm_num
    omega
  exact ⟨zfill_length 4 _ (repr_length_le 4 n (by norm_num) hp),
    zfill_digits 4 _ (repr_digits n)⟩

theorem fmt2_shape (n : Nat) (h : n < 100) : digitsOfWidth 2 (fmt2 n) := by
  have hp : n < 10 ^ 2 := by
    have : (10:ℕ) ^ 2 = 100 := by norm_num
    omega
  exact ⟨zfill_length 2 _ (repr_length_le 2 n (by norm_num) hp),
    zfill_digits 2 _ (repr_digits n)⟩

/-- C1: for every table snapshot with `c` columns and `r` rows (every
row rectangular, as pandas guarantees), `prepare_dataframe_for_upload`
produces exactly `r + 1` rows of string cells, each of length exactly
`c`, the first being the column names in order. -/
theorem C1_normalizer_shape (df : DataFrame)
    (hrect : ∀ row ∈ df.values, row.length = df.columns.length) :
    (prepare_dataframe_for_upload df).length = df.values.length + 1 ∧
    (∀ r ∈ prepare_dataframe_for_upload df, r.length = df.columns.length) ∧
    (prepare_dataframe_for_upload df).head? = some df.columns := by
  refine ⟨by simp [prepare_dataframe_for_upload], ?_, ?_⟩
  · intro r hr
    simp only [prepare_dataframe_for_upload, List.map_cons, List.mem_cons,
      List.mem_map] at hr
    rcases hr with h | ⟨row, hrow, h⟩
    · subst h; simp
    · subst h; simp [hrect row hrow]
  · simp [prepare_dataframe_for_upload, List.map_map, Function.comp_def,
      cleanCell_str]

/-- Witness for C1 at the spec's scenario table. -/
theorem C1_witness :
    (∀ row ∈ sampleDF.values, row.length = sampleDF.columns.length) ∧
    ((prepare_dataframe_for_upload sampleDF).length = sampleDF.values.length + 1 ∧
     (∀ r ∈ prepare_dataframe_for_upload sampleDF, r.length = sampleDF.columns.length) ∧
     (prepare_dataframe_for_upload sampleDF).head? = some sampleDF.columns) :=
  ⟨by decide, C1_normalizer_shape sampleDF (by decide)⟩

/-- C2: cell normalization maps a null cell to the empty string, a
timestamp cell to the exact `YYYY-MM-DD HH:MM:SS` text (four-digit year
and two-digit fields joined by the literal separators, 19 characters in
all), and every other cell to its default string representation
`str(cell)`. -/
theorem C2_cell_normalization (t : Timestamp)
    (hy : t.year < 10000) (hmo : t.month < 100) (hd : t.day < 100)
    (hh : t.hour < 100) (hmi : t.minute < 100) (hs : t.second < 100) :
    cleanCell DBValue.null = "" ∧
    (∃ Y MO D H MI S, digitsOfWidth 4 Y ∧ digitsOfWidth 2 MO ∧
      digitsOfWidth 2 D ∧ digitsOfWidth 2 H ∧ digitsOfWidth 2 MI ∧
      digitsOfWidth 2 S ∧
      cleanCell (DBValue.timestamp t) =
        Y ++ "-" ++ MO ++ "-" ++ D ++ " " ++ H ++ ":" ++ MI ++ ":" ++ S) ∧
    (cleanCell (DBValue.timestamp t)).length = 19 ∧
    (∀ s, cleanCell (DBValue.str s) = pyStr (DBValue.str s)) ∧
    (∀ n, cleanCell (DBValue.int n) = pyStr (DBValue.int n)) ∧
    (∀ b, cleanCell (DBValue.bool b) = pyStr (DBValue.bool b)) := by
  have h4 := fmt4_shape t.year hy
  have hmo2 := fmt2_shape t.month hmo
  have hd2 := fmt2_shape t.day hd
  have hh2 := fmt2_shape t.hour hh
  have hmi2 := fmt2_shape t.minute hmi
  have hs2 := fmt2_shape t.second hs
  refine ⟨rfl, ⟨fmt4 t.year, fmt2 t.month, fmt2 t.day, fmt2 t.hour,
    fmt2 t.minute, fmt2 t.second, h4, hmo2, hd2, hh2, hmi2, hs2, rfl⟩, ?_,
    fun _ => rfl, fun _ => rfl, fun _ => rfl⟩
  show (strftimeYmdHMS t).length = 19
  simp only [strftimeYmdHMS, String.length_append, h4.1, hmo2.1, hd2.1,
    hh2.1, hmi2.1, hs2.1]
  rfl

/-- Witness for C2 at the sample timestamp 2024-01-15 09:30:05. -/
theorem C2_witness :
    (ts0.year < 10000 ∧ ts0.month < 100 ∧ ts0.day < 100 ∧ ts0.hour < 100 ∧
      ts0.minute < 100 ∧ ts0.second < 100) ∧
    (cleanCell DBValue.null = "" ∧
     (∃ Y MO D H MI S, digitsOfWidth 4 Y ∧ digitsOfWidth 2 MO ∧
       digitsOfWidth 2 D ∧ digitsOfWidth 2 H ∧ digitsOfWidth 2 MI ∧
       digitsOfWidth 2 S ∧
       cleanCell (DBValue.timestamp ts0) =
         Y ++ "-" ++ MO ++ "-" ++ D ++ " " ++ H ++ ":" ++ MI ++ ":" ++ S) ∧
     (cleanCell (DBValue.timestamp ts0)).length = 19 ∧
     (∀ s, cleanCell (DBValue.str s) = pyStr (DBValue.str s)) ∧
     (∀ n, cleanCell (DBValue.int n) = pyStr (DBValue.int n)) ∧
     (∀ b, cleanCell (DBValue.bool b) = pyStr (DBValue.bool b))) :=
  ⟨by decide, C2_cell_normalization ts0 (by decide) (by decide) (by decide)
    (by decide) (by decide) (by decide)⟩

/-- C3: whenever the read phase yields `None` or an empty snapshot, both
sync cycles report failure and leave both worksheets exactly as they
were. -/
theorem C3_failed_read_preserves_sheets (env : CycleEnv) (tableName : String)
    (m : Nat) (c : DBConn) (s : SheetsState)
    (h : (get_table_data c env.reconnectOk env.fetch).1 = Option.none ∨
      ∃ df, (get_table_data c env.reconnectOk env.fetch).1 = some df ∧
        df.values.length = 0) :
    ((perform_sync_cycle env tableName m c s).1 = false ∧
     (perform_sync_cycle env tableName m c s).2.2 = s) ∧
    ((download_and_upload_data env tableName c s).1 = false ∧
     (download_and_upload_data env tableName c s).2.2 = s) := by
  rcases hg : get_table_data c env.reconnectOk env.fetch with ⟨o, c2⟩
  rw [hg] at h
  rcases h with h | ⟨df, hdf, hlen⟩
  · simp only at h
    subst h
    simp [perform_sync_cycle, download_and_upload_data, hg]
  · simp only at hdf
    subst hdf
    simp [perform_sync_cycle, download_and_upload_data, hg, hlen]

/-- Witness for C3: a raising fetch against prior worksheet contents. -/
theorem C3_witness :
    ((get_table_data conn0 failCycle.reconnectOk failCycle.fetch).1 = Option.none ∨
     ∃ df, (get_table_data conn0 failCycle.reconnectOk failCycle.fetch).1 = some df ∧
       df.values.length = 0) ∧
    (((perform_sync_cycle failCycle "users" 2 conn0 sheets0).1 = false ∧
      (perform_sync_cycle failCycle "users" 2 conn0 sheets0).2.2 = sheets0) ∧
     ((download_and_upload_data failCycle "users" conn0 sheets0).1 = false ∧
      (download_and_upload_data failCycle "users" conn0 sheets0).2.2 = sheets0)) :=
  ⟨Or.inl (by decide),
   C3_failed_read_preserves_sheets failCycle "users" 2 conn0 sheets0 (Or.inl (by decide))⟩

/-- C4 counterexample: for the existing table with columns `id`, `name`
and zero rows, `get_table_data` returns `pd.DataFrame()`, whose column
list is empty -- the snapshot does not carry the table's column names. -/
theorem C4_counterexample :
    (get_table_data conn0 true (FetchOutcome.succeeds ["id", "name"] [])).1 =
      some ⟨[], []⟩ ∧
    ¬ (DataFrame.mk [] []).columns = ["id", "name"] := by decide

/-- C4 as amended: on an existing table with zero rows `get_table_data`
returns an explicit empty snapshot with zero rows and zero columns (the
column names are discarded), and that result is distinct from the
failure result `None` returned when the fetch raises. -/
theorem C4_empty_snapshot (c : DBConn) (rOk : Bool) (cols : List String)
    (hconn : c.connection = true ∨ rOk = true) :
    (get_table_data c rOk (FetchOutcome.succeeds cols [])).1 = some ⟨[], []⟩ ∧
    (get_table_data c rOk (FetchOutcome.succeeds cols [])).1 ≠ Option.none ∧
    (get_table_data c rOk FetchOutcome.raises).1 = Option.none := by
  rcases hconn with h | h <;> simp [get_table_data, h]

/-- Witness for C4 on an open connection. -/
theorem C4_witness :
    (conn0.connection = true ∨ true = true) ∧
    ((get_table_data conn0 true (FetchOutcome.succeeds ["id"] [])).1 = some ⟨[], []⟩ ∧
     (get_table_data conn0 true (FetchOutcome.succeeds ["id"] [])).1 ≠ Option.none ∧
     (get_table_data conn0 true FetchOutcome.raises).1 = Option.none) :=
  ⟨Or.inr rfl, C4_empty_snapshot conn0 true ["id"] (Or.inr rfl)⟩

theorem update_worksheet_data_true (o : WriteOracle) (data ws ws2 : List (List String))
    (h : update_worksheet_data o data ws = (true, ws2)) : ws2 = data := by
  rcases o with ⟨cOk, uOk⟩
  cases cOk <;> cases uOk <;> simp_all [update_worksheet_data]

theorem update_metadata_worksheet_true (env : WsWriteEnv)
    (md : List (String × MetaVal)) (ws ws2 : List (List String))
    (h : update_metadata_worksheet env md ws = (true, ws2)) :
    ws2 = renderMetadata md := by
  rcases env with ⟨wsOk, ⟨cOk, uOk⟩⟩
  cases wsOk <;> cases cOk <;> cases uOk <;>
    simp_all [update_metadata_worksheet, update_worksheet_data]

/-- C5 counterexample: the one-time mode's metadata record carries
exactly six attributes, and none of them is a run status. -/
theorem C5_counterexample :
    ((oneTimeMetadata "users" sampleDF ts0).map Prod.fst =
      ["Last Sync Time", "Source Table", "Total Rows", "Total Columns",
       "Data Worksheet", "Sync Type"]) ∧
    "Status" ∉ (oneTimeMetadata "users" sampleDF ts0).map Prod.fst := by decide

theorem perform_sync_cycle_metaWs (env : CycleEnv) (tn : String) (m : Nat)
    (c : DBConn) (s : SheetsState)
    (hc : (perform_sync_cycle env tn m c s).1 = true) :
    ∃ df, (perform_sync_cycle env tn m c s).2.2.metaWs =
      renderMetadata (continuousMetadata tn df m env.now) := by
  rcases hg : get_table_data c env.reconnectOk env.fetch with ⟨o, c2⟩
  cases o with
  | none => simp [perform_sync_cycle, hg] at hc
  | some df =>
    by_cases hlen : df.values.length = 0
    · simp [perform_sync_cycle, hg, hlen] at hc
    · rcases hdw : update_data_worksheet env.dataWrite df s.dataWs with ⟨b1, dataWs2⟩
      cases b1 with
      | false => simp [perform_sync_cycle, hg, hlen, hdw] at hc
      | true =>
        rcases hmw : update_metadata_worksheet env.metaWrite
            (continuousMetadata tn df m env.now) s.metaWs with ⟨b2, metaWs2⟩
        have hres : perform_sync_cycle env tn m c s = (b2, c2, ⟨dataWs2, metaWs2⟩) := by
          simp [perform_sync_cycle, hg, hlen, hdw, hmw]
        have hb2 : b2 = true := by rw [hres] at hc; exact hc
        subst hb2
        refine ⟨df, ?_⟩
        rw [hres]
        exact update_metadata_worksheet_true _ _ _ _ hmw

theorem download_and_upload_metaWs (env : CycleEnv) (tn : String)
    (c : DBConn) (s : SheetsState)
    (ho : (download_and_upload_data env tn c s).1 = true) :
    ∃ df, (download_and_upload_data env tn c s).2.2.metaWs =
      renderMetadata (oneTimeMetadata tn df env.now) := by
  rcases hg : get_table_data c env.reconnectOk env.fetch with ⟨o, c2⟩
  cases o with
  | none => simp [download_and_upload_data, hg] at ho
  | some df =>
    by_cases hlen : df.values.length = 0
    · simp [download_and_upload_data, hg, hlen] at ho
    · rcases hdw : update_data_worksheet env.dataWrite df s.dataWs with ⟨b1, dataWs2⟩
      cases b1 with
      | false => simp [download_and_upload_data, hg, hlen, hdw] at ho
      | true =>
        rcases hmw : update_metadata_worksheet env.metaWrite
            (oneTimeMetadata tn df env.now) s.metaWs with ⟨b2, metaWs2⟩
        have hres : download_and_upload_data env tn c s = (b2, c2, ⟨dataWs2, metaWs2⟩) := by
          simp [download_and_upload_data, hg, hlen, hdw, hmw]
        have hb2 : b2 = true := by rw [hres] at ho; exact ho
        subst hb2
        refine ⟨df, ?_⟩
        rw [hres]
        exact update_metadata_worksheet_true _ _ _ _ hmw

/-- C5 as amended: every successful cycle overwrites the metadata
worksheet with the rendered metadata record; in interval mode that
record's attributes are exactly last-sync timestamp, source table, row
count, column count, target worksheet, sync interval and the run status
`Running`, while in one-time mode the record carries the sync mode as
`Sync Type: One-time` and the same first five attributes but no
run-status attribute at all. -/
theorem C5_metadata_attributes (tn : String) (m : Nat) (env env2 : CycleEnv)
    (c c2 : DBConn) (s s2 : SheetsState)
    (hc : (perform_sync_cycle env tn m c s).1 = true)
    (ho : (download_and_upload_data env2 tn c2 s2).1 = true) :
    (∃ df, (perform_sync_cycle env tn m c s).2.2.metaWs =
      renderMetadata (continuousMetadata tn df m env.now)) ∧
    (∃ df, (download_and_upload_data env2 tn c2 s2).2.2.metaWs =
      renderMetadata (oneTimeMetadata tn df env2.now)) ∧
    (∀ df, (continuousMetadata tn df m env.now).map Prod.fst =
        ["Last Sync Time", "Source Table", "Total Rows", "Total Columns",
         "Data Worksheet", "Sync Interval", "Status"] ∧
      ("Status", MetaVal.s "Running") ∈ continuousMetadata tn df m env.now ∧
      ("Source Table", MetaVal.s tn) ∈ continuousMetadata tn df m env.now ∧
      ("Total Rows", MetaVal.i df.values.length) ∈ continuousMetadata tn df m env.now ∧
      ("Total Columns", MetaVal.i df.columns.length) ∈ continuousMetadata tn df m env.now ∧
      ("Data Worksheet", MetaVal.s (tn ++ "_data")) ∈ continuousMetadata tn df m env.now ∧
      ("Last Sync Time", MetaVal.s (strftimeYmdHMS env.now)) ∈
        continuousMetadata tn df m env.now) ∧
    (∀ df, (oneTimeMetadata tn df env2.now).map Prod.fst =
        ["Last Sync Time", "Source Table", "Total Rows", "Total Columns",
         "Data Worksheet", "Sync Type"] ∧
      ("Sync Type", MetaVal.s "One-time") ∈ oneTimeMetadata tn df env2.now ∧
      "Status" ∉ (oneTimeMetadata tn df env2.now).map Prod.fst) := by
  refine ⟨perform_sync_cycle_metaWs env tn m c s hc,
    download_and_upload_metaWs env2 tn c2 s2 ho, ?_, ?_⟩
  · intro df
    refine ⟨by simp [continuousMetadata], ?_, ?_, ?_, ?_, ?_, ?_⟩ <;>
      simp [continuousMetadata]
  · intro df
    refine ⟨by simp [oneTimeMetadata], ?_, ?_⟩ <;> simp [oneTimeMetadata]

/-- Witness for C5: a fully successful interval cycle and a fully
successful one-time cycle over the sample table. -/
theorem C5_witness :
    ((perform_sync_cycle okCycle "users" 2 conn0 sheets0).1 = true ∧
     (download_and_upload_data okCycle "users" conn0 sheets0).1 = true) ∧
    ((∃ df, (perform_sync_cycle okCycle "users" 2 conn0 sheets0).2.2.metaWs =
       renderMetadata (continuousMetadata "users" df 2 okCycle.now)) ∧
     (∃ df, (download_and_upload_data okCycle "users" conn0 sheets0).2.2.metaWs =
       renderMetadata (oneTimeMetadata "users" df okCycle.now)) ∧
     (∀ df, (continuousMetadata "users" df 2 okCycle.now).map Prod.fst =
         ["Last Sync Time", "Source Table", "Total Rows", "Total Columns",
          "Data Worksheet", "Sync Interval", "Status"] ∧
       ("Status", MetaVal.s "Running") ∈ continuousMetadata "users" df 2 okCycle.now ∧
       ("Source Table", MetaVal.s "users") ∈ continuousMetadata "users" df 2 okCycle.now ∧
       ("Total Rows", MetaVal.i df.values.length) ∈ continuousMetadata "users" df 2 okCycle.now ∧
       ("Total Columns", MetaVal.i df.columns.length) ∈ continuousMetadata "users" df 2 okCycle.now ∧
       ("Data Worksheet", MetaVal.s ("users" ++ "_data")) ∈ continuousMetadata "users" df 2 okCycle.now ∧
       ("Last Sync Time", MetaVal.s (strftimeYmdHMS okCycle.now)) ∈
         continuousMetadata "users" df 2 okCycle.now) ∧
     (∀ df, (oneTimeMetadata "users" df okCycle.now).map Prod.fst =
         ["Last Sync Time", "Source Table", "Total Rows", "Total Columns",
          "Data Worksheet", "Sync Type"] ∧
       ("Sync Type", MetaVal.s "One-time") ∈ oneTimeMetadata "users" df okCycle.now ∧
       "Status" ∉ (oneTimeMetadata "users" df okCycle.now).map Prod.fst)) :=
  ⟨⟨by decide, by decide⟩,
   C5_metadata_attributes "users" 2 okCycle okCycle conn0 conn0 sheets0 sheets0
     (by decide) (by decide)⟩

theorem syncLoop_control (fuel : Nat) (env env2 : SchedEnv) (tn tn2 : String)
    (m : Nat) (hstop : env.stopAt = env2.stopAt) (hdur : env.cycleDur = env2.cycleDur) :
    ∀ (st st2 : SyncState), st.time = st2.time → st.syncCount = st2.syncCount →
      (syncLoop env tn m st fuel).1.time = (syncLoop env2 tn2 m st2 fuel).1.time ∧
      (syncLoop env tn m st fuel).1.syncCount = (syncLoop env2 tn2 m st2 fuel).1.syncCount ∧
      (syncLoop env tn m st fuel).2 = (syncLoop env2 tn2 m st2 fuel).2 := by
  induction fuel with
  | zero =>
    intro st st2 ht hk
    simp only [syncLoop]
    exact ⟨ht, hk, trivial⟩
  | succ fuel ih =>
    intro st st2 ht hk
    obtain ⟨t, k, cn, sh⟩ := st
    obtain ⟨t2, k2, cn2, sh2⟩ := st2
    have ht2 : t = t2 := ht
    have hk2 : k = k2 := hk
    subst ht2
    subst hk2
    simp only [syncLoop]
    rw [← hstop, ← hdur]
    by_cases hr : isRunningAt env.stopAt t = true
    · by_cases hr3 : isRunningAt env.stopAt (waitLoop env.stopAt t (m * 60)) = true
      · simp only [hr, hr3, Bool.not_true, Bool.false_eq_true, if_false]
        exact ih _ _ rfl rfl
      · simp only [Bool.not_eq_true] at hr3
        simp [hr, hr3]
    · simp only [Bool.not_eq_true] at hr
      simp [hr]

/-- C6: if the initial sync cycle fails, `start_continuous_sync` returns
failure with the loop never entered (the final state is exactly the
state after the lone initial cycle, no cleanup record written); and the
loop's control flow -- which wait runs, which cycle number runs when,
when it exits -- is completely independent of the cycles' outcomes: a
later failed cycle is simply skipped, the loop continuing to the next
interval with no retry and no backoff. -/
theorem C6_failure_policy :
    (∀ (env : StartEnv) (tn : String) (m fuel : Nat) (st : SyncState),
      env.envOk = true → env.servicesOk = true →
      (perform_sync_cycle env.initCycle tn m (connOn st.conn) st.sheets).1 = false →
      start_continuous_sync env tn m fuel st =
        some (false, { afterInit env tn m st with syncCount := st.syncCount })) ∧
    (∀ (fuel : Nat) (env env2 : SchedEnv) (tn tn2 : String) (m : Nat) (st st2 : SyncState),
      env.stopAt = env2.stopAt → env.cycleDur = env2.cycleDur →
      st.time = st2.time → st.syncCount = st2.syncCount →
      (syncLoop env tn m st fuel).1.time = (syncLoop env2 tn2 m st2 fuel).1.time ∧
      (syncLoop env tn m st fuel).1.syncCount = (syncLoop env2 tn2 m st2 fuel).1.syncCount ∧
      (syncLoop env tn m st fuel).2 = (syncLoop env2 tn2 m st2 fuel).2) := by
  constructor
  · intro env tn m fuel st h1 h2 h3
    simp [start_continuous_sync, h1, h2, h3]
  · intro fuel env env2 tn tn2 m st st2 hstop hdur ht hk
    exact syncLoop_control fuel env env2 tn tn2 m hstop hdur st st2 ht hk

/-- Witness for C6: a failing initial cycle aborts the whole run, and
the loop's timing over three iterations is identical whether every
cycle succeeds or every cycle fails. -/
theorem C6_witness :
    (start_continuous_sync startEnvFail "users" 2 5 st0 =
      some (false, { afterInit startEnvFail "users" 2 st0 with syncCount := st0.syncCount })) ∧
    ((syncLoop schedMidCycle "users" 1 stMidCycle 3).1.time =
       (syncLoop schedMidCycleFail "users" 1 stMidCycle 3).1.time ∧
     (syncLoop schedMidCycle "users" 1 stMidCycle 3).1.syncCount =
       (syncLoop schedMidCycleFail "users" 1 stMidCycle 3).1.syncCount ∧
     (syncLoop schedMidCycle "users" 1 stMidCycle 3).2 =
       (syncLoop schedMidCycleFail "users" 1 stMidCycle 3).2) :=
  ⟨C6_failure_policy.1 startEnvFail "users" 2 5 st0 rfl rfl (by decide),
   C6_failure_policy.2 3 schedMidCycle schedMidCycleFail "users" "users" 1
     stMidCycle stMidCycle rfl rfl rfl rfl⟩

theorem waitLoop_of_stop_le (s : ℚ) (t : Nat) (n : Nat) (h : s ≤ (t : ℚ)) :
    waitLoop s t n = t := by
  have hlt : ¬ ((t : ℚ) < s) := not_lt.mpr h
  cases n with
  | zero => rfl
  | succ n => simp [waitLoop, isRunningAt, hlt]

theorem waitLoop_observes (n : Nat) : ∀ (s : ℚ) (t : Nat), (t : ℚ) < s →
    s ≤ ((t + n : Nat) : ℚ) →
    s ≤ ((waitLoop s t n : Nat) : ℚ) ∧ ((waitLoop s t n : Nat) : ℚ) < s + 1 := by
  induction n with
  | zero =>
    intro s t h1 h2
    rw [Nat.add_zero] at h2
    exact absurd h2 (not_le.mpr h1)
  | succ n ih =>
    intro s t h1 h2
    have hru : isRunningAt s t = true := by simp [isRunningAt, h1]
    simp only [waitLoop, hru, if_true]
    by_cases h3 : ((t + 1 : Nat) : ℚ) < s
    · apply ih s (t + 1) h3
      push_cast at h2 ⊢
      linarith
    · push_neg at h3
      rw [waitLoop_of_stop_le s (t + 1) n h3]
      constructor
      · exact h3
      · push_cast
        linarith

/-- C7: a stop request arriving at any instant during the inter-cycle
wait is observed within one second (the wait exits at the first whole
second at or after the stop instant, which is less than one second
later), while a stop arriving during a running sync cycle lets that
cycle run to completion -- its worksheet writes and full duration are
applied -- and the loop then exits at the very next flag check. -/
theorem C7_stop_within_one_second :
    (∀ (stopAt : ℚ) (t n : Nat), (t : ℚ) ≤ stopAt → stopAt ≤ ((t + n : Nat) : ℚ) →
      stopAt ≤ ((waitLoop stopAt t n : Nat) : ℚ) ∧
      ((waitLoop stopAt t n : Nat) : ℚ) < stopAt + 1) ∧
    (∀ (env : SchedEnv) (tn : String) (m fuel : Nat) (st : SyncState),
      isRunningAt env.stopAt st.time = true →
      isRunningAt env.stopAt (waitLoop env.stopAt st.time (m * 60)) = true →
      env.stopAt ≤ ((waitLoop env.stopAt st.time (m * 60) +
        env.cycleDur (st.syncCount + 1) : Nat) : ℚ) →
      syncLoop env tn m st (fuel + 2) =
        ({ time := waitLoop env.stopAt st.time (m * 60) + env.cycleDur (st.syncCount + 1),
           syncCount := st.syncCount + 1,
           conn := (perform_sync_cycle (env.cycles (st.syncCount + 1)) tn m
             st.conn st.sheets).2.1,
           sheets := (perform_sync_cycle (env.cycles (st.syncCount + 1)) tn m
             st.conn st.sheets).2.2 }, true)) := by
  constructor
  · intro stopAt t n h1 h2
    rcases lt_or_eq_of_le h1 with h1 | h1
    · exact waitLoop_observes n stopAt t h1 h2
    · rw [waitLoop_of_stop_le stopAt t n (le_of_eq h1.symm)]
      constructor
      · exact le_of_eq h1.symm
      · rw [← h1]
        linarith
  · intro env tn m fuel st h1 h2 h3
    have hstop : isRunningAt env.stopAt
        (waitLoop env.stopAt st.time (m * 60) + env.cycleDur (st.syncCount + 1)) = false := by
      simp only [isRunningAt, decide_eq_false_iff_not, not_lt]
      exact h3
    show syncLoop env tn m st (fuel + 1 + 1) = _
    simp only [syncLoop, h1, h2, Bool.not_true, Bool.false_eq_true, if_false, hstop,
      Bool.not_false, if_true]

/-- Witness for C7: a stop at instant 3.5 during a 60-second wait
starting at second 2 is observed at second 4, and a stop at instant 65.5
during the ten-second cycle that starts at second 60 lets the cycle
finish at second 70 before the loop exits. -/
theorem C7_witness :
    (((2 : Nat) : ℚ) ≤ 7 / 2 ∧ (7 : ℚ) / 2 ≤ ((2 + 60 : Nat) : ℚ) ∧
     (7 : ℚ) / 2 ≤ ((waitLoop (7 / 2) 2 60 : Nat) : ℚ) ∧
     ((waitLoop (7 / 2) 2 60 : Nat) : ℚ) < 7 / 2 + 1) ∧
    (isRunningAt schedMidCycle.stopAt stMidCycle.time = true ∧
     isRunningAt schedMidCycle.stopAt
       (waitLoop schedMidCycle.stopAt stMidCycle.time (1 * 60)) = true ∧
     schedMidCycle.stopAt ≤ ((waitLoop schedMidCycle.stopAt stMidCycle.time (1 * 60) +
       schedMidCycle.cycleDur (stMidCycle.syncCount + 1) : Nat) : ℚ) ∧
     syncLoop schedMidCycle "users" 1 stMidCycle (0 + 2) =
       ({ time := waitLoop schedMidCycle.stopAt stMidCycle.time (1 * 60) +
            schedMidCycle.cycleDur (stMidCycle.syncCount + 1),
          syncCount := stMidCycle.syncCount + 1,
          conn := (perform_sync_cycle (schedMidCycle.cycles (stMidCycle.syncCount + 1))
            "users" 1 stMidCycle.conn stMidCycle.sheets).2.1,
          sheets := (perform_sync_cycle (schedMidCycle.cycles (stMidCycle.syncCount + 1))
            "users" 1 stMidCycle.conn stMidCycle.sheets).2.2 }, true)) :=
  ⟨⟨by norm_num, by norm_num,
    C7_stop_within_one_second.1 (7 / 2) 2 60 (by norm_num) (by norm_num)⟩,
   by decide, by decide, by decide,
   C7_stop_within_one_second.2 schedMidCycle "users" 1 0 stMidCycle
     (by decide) (by decide) (by decide)⟩

theorem syncCleanup_spec (env : SchedEnv) (tn : String) (st : SyncState) :
    (syncCleanup env tn st).1 = true ∧
    (syncCleanup env tn st).2.conn.connection = false ∧
    (syncCleanup env tn st).2.syncCount = st.syncCount ∧
    (env.finalWrite.wsOk = true → env.finalWrite.write.clearOk = true →
     env.finalWrite.write.updateOk = true →
     (syncCleanup env tn st).2.sheets.metaWs =
       renderMetadata (finalMetadata env tn st.syncCount)) := by
  rcases hu : update_metadata_worksheet env.finalWrite
      (finalMetadata env tn st.syncCount) st.sheets.metaWs with ⟨bu, wsu⟩
  refine ⟨by simp [syncCleanup, hu], ?_, by simp [syncCleanup, hu], ?_⟩
  · by_cases hcn : st.conn.connection <;> simp [syncCleanup, hu, hcn]
  · intro hw hc hup
    have hval : update_metadata_worksheet env.finalWrite
        (finalMetadata env tn st.syncCount) st.sheets.metaWs =
        (true, renderMetadata (finalMetadata env tn st.syncCount)) := by
      simp [update_metadata_worksheet, update_worksheet_data, hw, hc, hup]
    rw [hu] at hval
    simp [syncCleanup, hu, hval]

/-- C8: whenever a run that passed validation, service connection and
the initial cycle leaves the loop because the stop flag was observed,
`start_continuous_sync` closes the database connection, best-effort
writes a final metadata record whose `Status` is `Stopped` (when the
write's gspread calls succeed the metadata worksheet holds exactly that
rendered record), and returns success -- with no assumption at all on
the final write's oracle bits, so a failing final write still yields the
same successful return. -/
theorem C8_stop_shutdown (env : StartEnv) (tn : String) (m fuel : Nat)
    (st : SyncState)
    (h1 : env.envOk = true) (h2 : env.servicesOk = true)
    (h3 : (perform_sync_cycle env.initCycle tn m (connOn st.conn) st.sheets).1 = true)
    (h4 : (syncLoop env.sched tn m (afterInit env tn m st) fuel).2 = true) :
    ∃ stF, start_continuous_sync env tn m fuel st = some (true, stF) ∧
      stF.conn.connection = false ∧
      (env.sched.finalWrite.wsOk = true → env.sched.finalWrite.write.clearOk = true →
       env.sched.finalWrite.write.updateOk = true →
       stF.sheets.metaWs = renderMetadata (finalMetadata env.sched tn stF.syncCount)) := by
  rcases hl : syncLoop env.sched tn m (afterInit env tn m st) fuel with ⟨st3, exitb⟩
  have hb : exitb = true := by rw [hl] at h4; exact h4
  subst hb
  have hrun : start_continuous_sync env tn m fuel st =
      some (syncCleanup env.sched tn st3) := by
    simp [start_continuous_sync, h1, h2, h3, hl]
  obtain ⟨hret, hconn, hcount, hmeta⟩ := syncCleanup_spec env.sched tn st3
  refine ⟨(syncCleanup env.sched tn st3).2, ?_, hconn, ?_⟩
  · rw [hrun]
    rcases hcl : syncCleanup env.sched tn st3 with ⟨b, st4⟩
    rw [hcl] at hret
    subst hret
    rfl
  · intro hw hc hup
    rw [hcount]
    exact hmeta hw hc hup

/-- Witness for C8: a fully successful run stopped half a second in. -/
theorem C8_witness :
    (startEnv0.envOk = true ∧ startEnv0.servicesOk = true ∧
     (perform_sync_cycle startEnv0.initCycle "users" 2 (connOn st0.conn) st0.sheets).1 = true ∧
     (syncLoop startEnv0.sched "users" 2 (afterInit startEnv0 "users" 2 st0) 1).2 = true) ∧
    (∃ stF, start_continuous_sync startEnv0 "users" 2 1 st0 = some (true, stF) ∧
      stF.conn.connection = false ∧
      (startEnv0.sched.finalWrite.wsOk = true →
       startEnv0.sched.finalWrite.write.clearOk = true →
       startEnv0.sched.finalWrite.write.updateOk = true →
       stF.sheets.metaWs = renderMetadata (finalMetadata startEnv0.sched "users" stF.syncCount))) :=
  ⟨⟨rfl, rfl, by decide, by decide⟩,
   C8_stop_shutdown startEnv0 "users" 2 1 st0 rfl rfl (by decide) (by decide)⟩

/-- C9: against any well-formed response `table_exists` returns a
boolean (never propagates an exception), a failing existence query
yields `False`, and a succeeding query on an absent table also yields
`False` -- the very same value, so callers cannot tell "table absent"
from "existence check failed". -/
theorem C9_table_exists_conflates (c : DBConn) (cOk : Bool) (outcome : ExecOutcome)
    (hwf : wellFormedExistsOutcome outcome = true) :
    (∃ b, (table_exists c cOk outcome).1 = some b) ∧
    (table_exists c cOk ExecOutcome.raises).1 = some false ∧
    (table_exists c cOk (ExecOutcome.succeeds [[("exists", PyVal.b false)]] [])).1 =
      some false ∧
    (table_exists c cOk ExecOutcome.raises).1 =
      (table_exists c cOk (ExecOutcome.succeeds [[("exists", PyVal.b false)]] [])).1 := by
  have hsel : isSelectOrReturning existsQuery = true := by decide
  have hraises : (table_exists c cOk ExecOutcome.raises).1 = some false := by
    by_cases hc2 : c.connection <;> by_cases hok : cOk <;>
      simp [table_exists, query_database, hc2, hok]
  have habsent : (table_exists c cOk
      (ExecOutcome.succeeds [[("exists", PyVal.b false)]] [])).1 = some false := by
    by_cases hc2 : c.connection <;> by_cases hok : cOk <;>
      simp [table_exists, query_database, hc2, hok, hsel, dictGet]
  refine ⟨?_, hraises, habsent, by rw [hraises, habsent]⟩
  cases outcome with
  | raises => exact ⟨false, hraises⟩
  | succeeds fetched staged =>
    by_cases hc2 : c.connection
    · cases fetched with
      | nil => exact ⟨false, by simp [table_exists, query_database, hc2, hsel]⟩
      | cons r rest =>
        simp only [wellFormedExistsOutcome] at hwf
        rcases hde : dictGet r "exists" with _ | pv
        · rw [hde] at hwf
          simp at hwf
        · cases pv with
          | b v =>
            exact ⟨v, by simp [table_exists, query_database, hc2, hsel, hde]⟩
          | i n => rw [hde] at hwf; simp at hwf
          | s v => rw [hde] at hwf; simp at hwf
          | nullv => rw [hde] at hwf; simp at hwf
    · by_cases hok : cOk
      · cases fetched with
        | nil => exact ⟨false, by simp [table_exists, query_database, hc2, hok, hsel]⟩
        | cons r rest =>
          simp only [wellFormedExistsOutcome] at hwf
          rcases hde : dictGet r "exists" with _ | pv
          · rw [hde] at hwf
            simp at hwf
          · cases pv with
            | b v =>
              exact ⟨v, by simp [table_exists, query_database, hc2, hok, hsel, hde]⟩
            | i n => rw [hde] at hwf; simp at hwf
            | s v => rw [hde] at hwf; simp at hwf
            | nullv => rw [hde] at hwf; simp at hwf
      · exact ⟨false, by simp [table_exists, query_database, hc2, hok]⟩

/-- Witness for C9 on an open connection and a well-formed response. -/
theorem C9_witness :
    wellFormedExistsOutcome (ExecOutcome.succeeds [[("exists", PyVal.b true)]] []) = true ∧
    ((∃ b, (table_exists conn0 true
        (ExecOutcome.succeeds [[("exists", PyVal.b true)]] [])).1 = some b) ∧
     (table_exists conn0 true ExecOutcome.raises).1 = some false ∧
     (table_exists conn0 true (ExecOutcome.succeeds [[("exists", PyVal.b false)]] [])).1 =
       some false ∧
     (table_exists conn0 true ExecOutcome.raises).1 =
       (table_exists conn0 true (ExecOutcome.succeeds [[("exists", PyVal.b false)]] [])).1) :=
  ⟨by decide, C9_table_exists_conflates conn0 true
    (ExecOutcome.succeeds [[("exists", PyVal.b true)]] []) (by decide)⟩

/-- C10: whenever `query_database` can reach a cursor (an open
connection, or a successful on-demand connect), a raising execution is
rolled back -- `None` is returned and the committed database state is
untouched -- while a successful execution commits its staged state and
returns either the fetched rows (for a `SELECT`/`RETURNING` query) or
`True` (for any other statement).  The embedding is a total function:
every path yields one of these returns, mirroring the `try/except` that
keeps the Python from raising. -/
theorem C10_query_rollback_and_results (c : DBConn) (cOk : Bool) (q : String)
    (fetched staged : List (List (String × PyVal)))
    (h : c.connection = true ∨ cOk = true) :
    ((query_database c cOk q ExecOutcome.raises).1 = QueryResult.err ∧
     (query_database c cOk q ExecOutcome.raises).2.committed = c.committed) ∧
    (query_database c cOk q (ExecOutcome.succeeds fetched staged)).2.committed = staged ∧
    (isSelectOrReturning q = true →
      (query_database c cOk q (ExecOutcome.succeeds fetched staged)).1 =
        QueryResult.rows fetched) ∧
    (isSelectOrReturning q = false →
      (query_database c cOk q (ExecOutcome.succeeds fetched staged)).1 =
        QueryResult.ok) := by
  rcases h with h | h
  · by_cases hs : isSelectOrReturning q <;> simp [query_database, h, hs]
  · by_cases hc2 : c.connection <;> by_cases hs : isSelectOrReturning q <;>
      simp [query_database, h, hc2, hs]

/-- Witness for C10 on an open connection with a `SELECT` query. -/
theorem C10_witness :
    (conn0.connection = true ∨ true = true) ∧
    (((query_database conn0 true "SELECT 1" ExecOutcome.raises).1 = QueryResult.err ∧
      (query_database conn0 true "SELECT 1" ExecOutcome.raises).2.committed =
        conn0.committed) ∧
     (query_database conn0 true "SELECT 1"
       (ExecOutcome.succeeds [[("a", PyVal.i 1)]] [[("x", PyVal.i 2)]])).2.committed =
         [[("x", PyVal.i 2)]] ∧
     (isSelectOrReturning "SELECT 1" = true →
       (query_database conn0 true "SELECT 1"
         (ExecOutcome.succeeds [[("a", PyVal.i 1)]] [[("x", PyVal.i 2)]])).1 =
           QueryResult.rows [[("a", PyVal.i 1)]]) ∧
     (isSelectOrReturning "SELECT 1" = false →
       (query_database conn0 true "SELECT 1"
         (ExecOutcome.succeeds [[("a", PyVal.i 1)]] [[("x", PyVal.i 2)]])).1 =
           QueryResult.ok)) :=
  ⟨Or.inl rfl, C10_query_rollback_and_results conn0 true "SELECT 1"
    [[("a", PyVal.i 1)]] [[("x", PyVal.i 2)]] (Or.inl rfl)⟩

end NeonSync
